import Mathlib

/-!
Verification of the buffer-registry / versioning layer of `nanogui/glutil.h`
(classes `GLShader` and `GLFramebuffer`).

The embedding models:
* `std::map` registries as association lists with `mapFind` / `mapInsert` /
  `mapErase`;
* the GPU as an explicit state (`GPU`): a fresh-handle counter, a store from
  buffer handles to raw data streams, and a transfer counter instrumenting
  every CPU-to-GPU copy;
* matrices (the Eigen arguments of the templated entry points) as a shape
  plus a raw data stream, one entry per scalar coefficient.

Member functions whose bodies appear in the header (`hasAttrib`,
`attribVersion`, `resetAttribVersion`, `bufferSize`, the templated
`uploadAttrib` / `downloadAttrib` / `uploadIndices`, `GLFramebuffer::ready`
and its constructor) are translated directly from the source.  Bodies that
the header only declares (the raw `uploadAttrib` / `downloadAttrib`,
`invalidateAttribs`, `freeAttrib`, `shareAttrib`, `GLFramebuffer::init` /
`free`) are modelled from the specification and say so in their doc comments.
-/

set_option autoImplicit false

namespace Nanogui

/-- Lookup in an association-list map (first matching key), mirroring
`std::map::find`. -/
def mapFind {α β : Type} [DecidableEq α] : List (α × β) → α → Option β
  | [], _ => none
  | (k, v) :: rest, n => if k = n then some v else mapFind rest n

/-- Insert-or-assign in an association-list map, mirroring `map[k] = v`. -/
def mapInsert {α β : Type} [DecidableEq α] : List (α × β) → α → β → List (α × β)
  | [], n, v => [(n, v)]
  | (k, v0) :: rest, n, v =>
      if k = n then (k, v) :: rest else (k, v0) :: mapInsert rest n v

/-- Erase a key from an association-list map, mirroring `map.erase(k)`. -/
def mapErase {α β : Type} [DecidableEq α] : List (α × β) → α → List (α × β)
  | [], _ => []
  | (k, v) :: rest, n =>
      if k = n then mapErase rest n else (k, v) :: mapErase rest n

/-- `GLShader::Buffer` (glutil.h:186-193): metadata of one named attribute
buffer.  `size` is the total number of scalar coefficients, as passed from
`M.size()` by the templated `uploadAttrib` (glutil.h:80). -/
structure Buffer where
  id : Nat
  glType : Nat
  dim : Nat
  compSize : Nat
  size : Nat
  version : Int
deriving DecidableEq, Repr

/-- The GPU side of the model: a counter handing out fresh buffer handles
(`glGenBuffers`), the contents of each allocated buffer, and an
instrumentation counter incremented on every CPU-to-GPU data transfer. -/
structure GPU where
  nextId : Nat
  store : List (Nat × List Nat)
  transfers : Nat
deriving DecidableEq, Repr

/-- The state of a `GLShader` relevant to the buffer registry: its name and
`mBufferObjects` (glutil.h:194,200). -/
structure GLShader where
  mName : String
  mBufferObjects : List (String × Buffer)
deriving DecidableEq, Repr

/-- An Eigen matrix argument of the templated entry points: shape, the
traits of the scalar type (`sizeof(Scalar)`, `type_traits` tag and integral
flag, glutil.h:23-32,76-78), and the raw data stream (one entry per scalar
coefficient, column-major as `M.data()` exposes it). -/
structure Matrix where
  rows : Nat
  cols : Nat
  scalarBytes : Nat
  glType : Nat
  integral : Bool
  data : List Nat
deriving DecidableEq, Repr

namespace GLShader

/-- `GLShader::hasAttrib` (glutil.h:111-116): whether a buffer is registered
under `name`. -/
def hasAttrib (s : GLShader) (name : String) : Bool :=
  match mapFind s.mBufferObjects name with
  | none => false
  | some _ => true

/-- `GLShader::attribVersion` (glutil.h:122-127): the stored version of the
buffer registered under `name`, `-1` if absent. -/
def attribVersion (s : GLShader) (name : String) : Int :=
  match mapFind s.mBufferObjects name with
  | none => -1
  | some buf => buf.version

/-- `GLShader::resetAttribVersion` (glutil.h:130-134): set the version of
the registered buffer to `-1`; no-op when absent. -/
def resetAttribVersion (s : GLShader) (name : String) : GLShader :=
  match mapFind s.mBufferObjects name with
  | none => s
  | some buf =>
      ⟨s.mName, mapInsert s.mBufferObjects name { buf with version := -1 }⟩

/-- `GLShader::bufferSize` (glutil.h:173-178): sums `buf.second.size` over
all registered buffers (doc comment at glutil.h:172 claims the result is in
bytes). -/
def bufferSize (s : GLShader) : Nat :=
  s.mBufferObjects.foldl (fun acc p => acc + p.2.size) 0

/-- Modelled from the spec: the out-of-tree body of the raw
`GLShader::uploadAttrib(name, size, dim, compSize, glType, integral, data,
version)` declared at glutil.h:180-182.  Per the spec: if no Buffer exists
for `name`, create GPU storage and transfer the data, storing `version`;
if a Buffer exists and `version == -1` or `version` differs from the stored
version, re-transfer the data into the same handle (resizing the storage,
hence updating the stored byte-size metadata) and update the stored version;
otherwise skip the transfer entirely, leaving everything unchanged. -/
def uploadAttrib (s : GLShader) (gpu : GPU) (name : String) (size : Nat)
    (dim : Nat) (compSize : Nat) (glType : Nat) (integral : Bool)
    (data : List Nat) (version : Int) : GLShader × GPU :=
  match mapFind s.mBufferObjects name with
  | none =>
      let newId := gpu.nextId
      let buf : Buffer :=
        { id := newId, glType := glType, dim := dim, compSize := compSize,
          size := size, version := version }
      (⟨s.mName, mapInsert s.mBufferObjects name buf⟩,
       ⟨gpu.nextId + 1, mapInsert gpu.store newId data, gpu.transfers + 1⟩)
  | some buf =>
      if version = -1 ∨ version ≠ buf.version then
        let buf2 : Buffer :=
          { buf with compSize := compSize, size := size, version := version }
        (⟨s.mName, mapInsert s.mBufferObjects name buf2⟩,
         ⟨gpu.nextId, mapInsert gpu.store buf.id data, gpu.transfers + 1⟩)
      else
        (s, gpu)

/-- The templated `GLShader::uploadAttrib(name, M, version)` (glutil.h:75-82):
derives `compSize`, `glType`, `integral` from the traits of the scalar type and
forwards `M.size()`, `M.rows()` and `M.data()` to the raw overload. -/
def uploadAttribMat (s : GLShader) (gpu : GPU) (name : String) (M : Matrix)
    (version : Int) : GLShader × GPU :=
  uploadAttrib s gpu name (M.rows * M.cols) M.rows M.scalarBytes M.glType
    M.integral M.data version

/-- Modelled from the spec: the out-of-tree body of the raw
`GLShader::downloadAttrib(name, size, dim, compSize, glType, data)` declared
at glutil.h:183-184, which reads the GPU storage of the registered buffer back
into caller-provided memory. -/
def downloadAttribRaw (s : GLShader) (gpu : GPU) (name : String) : List Nat :=
  match mapFind s.mBufferObjects name with
  | none => []
  | some buf => (mapFind gpu.store buf.id).getD []

/-- The templated `GLShader::downloadAttrib(name, M)` (glutil.h:85-97):
throws a "buffer not found" `runtime_error` when `name` is unregistered;
otherwise resizes `M` to `(buf.dim, buf.size / buf.dim)` and reads the GPU
storage back.  The result is the shape and data of `M` on success. -/
def downloadAttribMat (s : GLShader) (gpu : GPU) (name : String) :
    Except String (Nat × Nat × List Nat) :=
  match mapFind s.mBufferObjects name with
  | none =>
      Except.error
        ("downloadAttrib(" ++ s.mName ++ ", " ++ name ++ ") : buffer not found!")
  | some buf =>
      Except.ok (buf.dim, buf.size / buf.dim, downloadAttribRaw s gpu name)

/-- `GLShader::uploadIndices` (glutil.h:100-102): uploads `M` under the
reserved name `"indices"` via the templated `uploadAttrib`, with the
defaulted version argument `-1`. -/
def uploadIndices (s : GLShader) (gpu : GPU) (M : Matrix) : GLShader × GPU :=
  uploadAttribMat s gpu "indices" M (-1)

/-- Modelled from the spec: the out-of-tree body of
`GLShader::invalidateAttribs` declared at glutil.h:105, which resets every
version of every registered buffer to `-1`. -/
def invalidateAttribs (s : GLShader) : GLShader :=
  ⟨s.mName, s.mBufferObjects.map (fun p => (p.1, { p.2 with version := -1 }))⟩

/-- Modelled from the spec: the out-of-tree body of `GLShader::freeAttrib`
declared at glutil.h:108, which deletes the GPU storage of the registered buffer
and removes it from the registry; no-op when absent. -/
def freeAttrib (s : GLShader) (gpu : GPU) (name : String) : GLShader × GPU :=
  match mapFind s.mBufferObjects name with
  | none => (s, gpu)
  | some buf =>
      (⟨s.mName, mapErase s.mBufferObjects name⟩,
       ⟨gpu.nextId, mapErase gpu.store buf.id, gpu.transfers⟩)

/-- Modelled from the spec: the out-of-tree body of `GLShader::shareAttrib`
declared at glutil.h:119, which registers, under `asName` (or `name` when
`asName` is empty), an alias of the buffer that `other` registers under `name` — the `Buffer`
record including its GPU handle — copying no GPU storage and allocating
nothing on the GPU. -/
def shareAttrib (s : GLShader) (other : GLShader) (name : String)
    (asName : String) : GLShader :=
  match mapFind other.mBufferObjects name with
  | none => s
  | some buf =>
      let key := if asName = "" then name else asName
      ⟨s.mName, mapInsert s.mBufferObjects key buf⟩

end GLShader

/-- `GLFramebuffer` (glutil.h:205-233): state of one offscreen render
target. -/
structure GLFramebuffer where
  mFramebuffer : Nat
  mDepth : Nat
  mColor : Nat
  mSize : Int × Int
  mSamples : Int
deriving DecidableEq, Repr

namespace GLFramebuffer

/-- The `GLFramebuffer` constructor (glutil.h:207): all handles zero. -/
def mk0 : GLFramebuffer :=
  { mFramebuffer := 0, mDepth := 0, mColor := 0, mSize := (0, 0), mSamples := 0 }

/-- `GLFramebuffer::ready` (glutil.h:225): the framebuffer handle is
non-zero. -/
def ready (fb : GLFramebuffer) : Bool :=
  fb.mFramebuffer != 0

/-- Modelled from the spec: the out-of-tree body of `GLFramebuffer::init`
declared at glutil.h:210, which allocates framebuffer, depth and color
attachments at the given size and sample count; on success the handles are
the (non-zero) names returned by the GL allocation calls, passed here as
arguments. -/
def init (_fb : GLFramebuffer) (size : Int × Int) (nSamples : Int)
    (fbHandle depthHandle colorHandle : Nat) : GLFramebuffer :=
  { mFramebuffer := fbHandle, mDepth := depthHandle, mColor := colorHandle,
    mSize := size, mSamples := nSamples }

/-- Modelled from the spec: the out-of-tree body of `GLFramebuffer::free`
declared at glutil.h:213, which releases all attachments and zeroes the
handles (idempotent). -/
def free (fb : GLFramebuffer) : GLFramebuffer :=
  { fb with mFramebuffer := 0, mDepth := 0, mColor := 0 }

end GLFramebuffer

/-- The accounting the spec describes for `bufferSize`: the sum in bytes,
i.e. of elementCount × componentByteSize, over all registered buffers.
Stated from the words of the spec for comparison with
`GLShader.bufferSize`, which is translated from the source. -/
def GLShader.bufferSizeSpec (s : GLShader) : Nat :=
  s.mBufferObjects.foldl (fun acc p => acc + p.2.size * p.2.compSize) 0

/-! ### Lemmas about the association-list maps -/

theorem mapFind_insert_self {α β : Type} [DecidableEq α]
    (l : List (α × β)) (n : α) (v : β) :
    mapFind (mapInsert l n v) n = some v := by
  induction l with
  | nil => simp [mapInsert, mapFind]
  | cons p rest ih =>
      obtain ⟨k, v0⟩ := p
      by_cases h : k = n
      · simp [mapInsert, h, mapFind]
      · simp [mapInsert, h, mapFind, ih]

theorem mapFind_insert_ne {α β : Type} [DecidableEq α]
    (l : List (α × β)) (n k : α) (v : β) (hk : k ≠ n) :
    mapFind (mapInsert l n v) k = mapFind l k := by
  induction l with
  | nil => simp [mapInsert, mapFind, Ne.symm hk]
  | cons p rest ih =>
      obtain ⟨k0, v0⟩ := p
      by_cases h : k0 = n
      · subst h
        simp [mapInsert, mapFind, Ne.symm hk]
      · simp only [mapInsert, if_neg h]
        by_cases h2 : k0 = k
        · simp [mapFind, h2]
        · simp [mapFind, h2, ih]

theorem mapFind_erase_self {α β : Type} [DecidableEq α]
    (l : List (α × β)) (n : α) :
    mapFind (mapErase l n) n = none := by
  induction l with
  | nil => simp [mapErase, mapFind]
  | cons p rest ih =>
      obtain ⟨k, v⟩ := p
      by_cases h : k = n
      · simp [mapErase, h, ih]
      · simp [mapErase, h, mapFind, ih]

theorem mapFind_invalidate (l : List (String × Buffer)) (k : String) :
    mapFind (l.map (fun p => (p.1, { p.2 with version := -1 }))) k
      = (mapFind l k).map (fun b => { b with version := -1 }) := by
  induction l with
  | nil => simp [mapFind]
  | cons p rest ih =>
      obtain ⟨k0, v0⟩ := p
      by_cases h : k0 = k
      · simp [mapFind, h]
      · simp [mapFind, h, ih]

/-! ### Claim theorems -/

/-- C1: the `uploadAttrib` versioning protocol.  When no buffer is registered
under `name`, GPU storage is created at a fresh handle, the data is
transferred, and the caller version is stored.  When a buffer exists and the
caller version is `-1` or differs from the stored version, the data is
re-transferred into the same handle, the size metadata is updated, and the
stored version is updated.  When a buffer exists and the caller version
equals the stored version and is not `-1`, no transfer occurs and both the
shader and the GPU are unchanged. -/
theorem uploadAttrib_versioning (s : GLShader) (gpu : GPU) (name : String)
    (size dim compSize glType : Nat) (integral : Bool) (data : List Nat)
    (version : Int) :
    (mapFind s.mBufferObjects name = none →
      (s.uploadAttrib gpu name size dim compSize glType integral data version).1.hasAttrib name = true ∧
      (s.uploadAttrib gpu name size dim compSize glType integral data version).1.attribVersion name = version ∧
      mapFind (s.uploadAttrib gpu name size dim compSize glType integral data version).2.store gpu.nextId = some data ∧
      (s.uploadAttrib gpu name size dim compSize glType integral data version).2.nextId = gpu.nextId + 1 ∧
      (s.uploadAttrib gpu name size dim compSize glType integral data version).2.transfers = gpu.transfers + 1) ∧
    (∀ buf, mapFind s.mBufferObjects name = some buf →
      (version = -1 ∨ version ≠ buf.version) →
      mapFind (s.uploadAttrib gpu name size dim compSize glType integral data version).1.mBufferObjects name
        = some { buf with compSize := compSize, size := size, version := version } ∧
      mapFind (s.uploadAttrib gpu name size dim compSize glType integral data version).2.store buf.id = some data ∧
      (s.uploadAttrib gpu name size dim compSize glType integral data version).2.nextId = gpu.nextId ∧
      (s.uploadAttrib gpu name size dim compSize glType integral data version).2.transfers = gpu.transfers + 1) ∧
    (∀ buf, mapFind s.mBufferObjects name = some buf →
      version = buf.version → version ≠ -1 →
      s.uploadAttrib gpu name size dim compSize glType integral data version = (s, gpu)) := by
  refine ⟨?_, ?_, ?_⟩
  · intro h
    simp [GLShader.uploadAttrib, h, GLShader.hasAttrib, GLShader.attribVersion,
      mapFind_insert_self]
  · intro buf h hcond
    simp [GLShader.uploadAttrib, h, if_pos hcond, mapFind_insert_self]
  · intro buf h h1 h2
    have hcond : ¬(version = -1 ∨ version ≠ buf.version) := by
      push_neg
      exact ⟨h2, h1⟩
    simp [GLShader.uploadAttrib, h, if_neg hcond]

/-- Witness for `uploadAttrib_versioning`: a fresh upload stores version 7;
a re-upload with a differing version performs a transfer; a re-upload with
the matching version 7 leaves shader and GPU untouched. -/
theorem uploadAttrib_versioning_witness :
    ((⟨"s", []⟩ : GLShader).uploadAttrib ⟨1, [], 0⟩ "pos" 6 3 4 5126 false [1, 2, 3, 4, 5, 6] 7).1.attribVersion "pos" = 7 ∧
    ((⟨"s", [("pos", ⟨1, 5126, 3, 4, 6, 7⟩)]⟩ : GLShader).uploadAttrib ⟨2, [(1, [1])], 1⟩ "pos" 6 3 4 5126 false [9] 8).2.transfers = 1 + 1 ∧
    ((⟨"s", [("pos", ⟨1, 5126, 3, 4, 6, 7⟩)]⟩ : GLShader).uploadAttrib ⟨2, [(1, [1])], 1⟩ "pos" 6 3 4 5126 false [9] 7)
      = (⟨"s", [("pos", ⟨1, 5126, 3, 4, 6, 7⟩)]⟩, ⟨2, [(1, [1])], 1⟩) := by
  refine ⟨?_, ?_, ?_⟩
  · exact ((uploadAttrib_versioning ⟨"s", []⟩ ⟨1, [], 0⟩ "pos" 6 3 4 5126 false
      [1, 2, 3, 4, 5, 6] 7).1 rfl).2.1
  · exact ((uploadAttrib_versioning ⟨"s", [("pos", ⟨1, 5126, 3, 4, 6, 7⟩)]⟩
      ⟨2, [(1, [1])], 1⟩ "pos" 6 3 4 5126 false [9] 8).2.1 ⟨1, 5126, 3, 4, 6, 7⟩
      (by decide) (Or.inr (by decide))).2.2.2
  · exact (uploadAttrib_versioning ⟨"s", [("pos", ⟨1, 5126, 3, 4, 6, 7⟩)]⟩
      ⟨2, [(1, [1])], 1⟩ "pos" 6 3 4 5126 false [9] 7).2.2 ⟨1, 5126, 3, 4, 6, 7⟩
      (by decide) rfl (by decide)

/-- C2: after `invalidateAttribs`, every registered buffer has version `-1`,
and an `uploadAttrib` for any registered name with any caller-supplied
version (including the one previously stored) performs a transfer. -/
theorem invalidateAttribs_forces_transfer (s : GLShader) (gpu : GPU)
    (name : String) (size dim compSize glType : Nat) (integral : Bool)
    (data : List Nat) (version : Int) :
    (∀ k buf, mapFind s.invalidateAttribs.mBufferObjects k = some buf →
      buf.version = -1) ∧
    (s.hasAttrib name = true →
      (s.invalidateAttribs.uploadAttrib gpu name size dim compSize glType integral data version).2.transfers
        = gpu.transfers + 1) := by
  constructor
  · intro k buf h
    simp only [GLShader.invalidateAttribs, mapFind_invalidate,
      Option.map_eq_some'] at h
    obtain ⟨b0, _, hb⟩ := h
    rw [← hb]
  · intro h
    rcases heq : mapFind s.mBufferObjects name with _ | buf
    · simp [GLShader.hasAttrib, heq] at h
    · have h2 : mapFind s.invalidateAttribs.mBufferObjects name
          = some { buf with version := -1 } := by
        simp [GLShader.invalidateAttribs, mapFind_invalidate, heq]
      have hcond : version = -1 ∨
          version ≠ ({ buf with version := -1 } : Buffer).version := by
        by_cases hv : version = -1
        · exact Or.inl hv
        · exact Or.inr (by simpa using hv)
      simp [GLShader.uploadAttrib, h2, if_pos hcond]

/-- Witness for `invalidateAttribs_forces_transfer`: re-uploading with the
previously stored version 7 right after `invalidateAttribs` still
transfers. -/
theorem invalidateAttribs_forces_transfer_witness :
    ((⟨"s", [("pos", ⟨1, 5126, 3, 4, 6, 7⟩)]⟩ : GLShader).invalidateAttribs.uploadAttrib
        ⟨2, [(1, [1])], 3⟩ "pos" 6 3 4 5126 false [9] 7).2.transfers = 3 + 1 :=
  (invalidateAttribs_forces_transfer ⟨"s", [("pos", ⟨1, 5126, 3, 4, 6, 7⟩)]⟩
    ⟨2, [(1, [1])], 3⟩ "pos" 6 3 4 5126 false [9] 7).2 (by decide)

/-- C3: `shareAttrib` registers, under `as` (or `name` when `as` is empty),
exactly the Buffer record of the source shader — same GPU handle, no new GPU
allocation, other entries untouched — and data subsequently uploaded to the
source shader under `name` is read back through the alias without
duplication. -/
theorem shareAttrib_alias (A B : GLShader) (gpu : GPU) (name asName : String)
    (buf : Buffer) (h : mapFind A.mBufferObjects name = some buf)
    (size dim compSize glType : Nat) (integral : Bool) (data : List Nat) :
    mapFind (B.shareAttrib A name asName).mBufferObjects
        (if asName = "" then name else asName) = some buf ∧
    (∀ k, k ≠ (if asName = "" then name else asName) →
      mapFind (B.shareAttrib A name asName).mBufferObjects k
        = mapFind B.mBufferObjects k) ∧
    (A.uploadAttrib gpu name size dim compSize glType integral data (-1)).2.nextId = gpu.nextId ∧
    (B.shareAttrib A name asName).downloadAttribMat
        (A.uploadAttrib gpu name size dim compSize glType integral data (-1)).2
        (if asName = "" then name else asName)
      = Except.ok (buf.dim, buf.size / buf.dim, data) := by
  have hshare : B.shareAttrib A name asName
      = ⟨B.mName, mapInsert B.mBufferObjects
          (if asName = "" then name else asName) buf⟩ := by
    simp [GLShader.shareAttrib, h]
  have hup : A.uploadAttrib gpu name size dim compSize glType integral data (-1)
      = (⟨A.mName, mapInsert A.mBufferObjects name
            { buf with compSize := compSize, size := size, version := -1 }⟩,
         ⟨gpu.nextId, mapInsert gpu.store buf.id data, gpu.transfers + 1⟩) := by
    simp [GLShader.uploadAttrib, h]
  refine ⟨?_, ?_, ?_, ?_⟩
  · rw [hshare]
    exact mapFind_insert_self ..
  · intro k hk
    rw [hshare]
    exact mapFind_insert_ne _ _ _ _ hk
  · rw [hup]
  · rw [hshare, hup]
    simp [GLShader.downloadAttribMat, GLShader.downloadAttribRaw,
      mapFind_insert_self]

/-- Witness for `shareAttrib_alias`: shader B aliases the `"pos"` buffer of
shader A as `"p"`; after A re-uploads fresh data, downloading `"p"` through
B yields that data. -/
theorem shareAttrib_alias_witness :
    ((⟨"B", []⟩ : GLShader).shareAttrib ⟨"A", [("pos", ⟨1, 5126, 3, 4, 6, 2⟩)]⟩
        "pos" "p").downloadAttribMat
        ((⟨"A", [("pos", ⟨1, 5126, 3, 4, 6, 2⟩)]⟩ : GLShader).uploadAttrib
          ⟨2, [(1, [0])], 5⟩ "pos" 6 3 4 5126 false [1, 2, 3, 4, 5, 6] (-1)).2
        "p"
      = Except.ok (3, 2, [1, 2, 3, 4, 5, 6]) := by
  have hw := (shareAttrib_alias ⟨"A", [("pos", ⟨1, 5126, 3, 4, 6, 2⟩)]⟩
    ⟨"B", []⟩ ⟨2, [(1, [0])], 5⟩ "pos" "p" ⟨1, 5126, 3, 4, 6, 2⟩ (by decide)
    6 3 4 5126 false [1, 2, 3, 4, 5, 6]).2.2.2
  simpa using hw

/-- C4: round-trip — uploading a matrix through the templated `uploadAttrib`
(whose version argument defaults to `-1`) and immediately downloading under
the same name returns the original shape and data, provided the matrix has
at least one row and any buffer already registered under that name has
matching dimensionality (the spec leaves a dimension change on re-upload
undefined). -/
theorem uploadAttrib_downloadAttrib_roundtrip (s : GLShader) (gpu : GPU)
    (name : String) (M : Matrix) (hrows : 0 < M.rows)
    (hdim : ∀ buf, mapFind s.mBufferObjects name = some buf → buf.dim = M.rows) :
    (s.uploadAttribMat gpu name M (-1)).1.downloadAttribMat
        (s.uploadAttribMat gpu name M (-1)).2 name
      = Except.ok (M.rows, M.cols, M.data) := by
  rcases heq : mapFind s.mBufferObjects name with _ | buf
  · simp [GLShader.uploadAttribMat, GLShader.uploadAttrib, heq,
      GLShader.downloadAttribMat, GLShader.downloadAttribRaw,
      mapFind_insert_self, Nat.mul_div_cancel_left M.cols hrows]
  · have hd := hdim buf heq
    simp [GLShader.uploadAttribMat, GLShader.uploadAttrib, heq,
      GLShader.downloadAttribMat, GLShader.downloadAttribRaw,
      mapFind_insert_self, hd, Nat.mul_div_cancel_left M.cols hrows]

/-- Witness for `uploadAttrib_downloadAttrib_roundtrip`: a fresh 3×2 float
matrix uploads and downloads back unchanged. -/
theorem uploadAttrib_downloadAttrib_roundtrip_witness :
    ((⟨"s", []⟩ : GLShader).uploadAttribMat ⟨1, [], 0⟩ "pos"
        ⟨3, 2, 4, 5126, false, [1, 2, 3, 4, 5, 6]⟩ (-1)).1.downloadAttribMat
        ((⟨"s", []⟩ : GLShader).uploadAttribMat ⟨1, [], 0⟩ "pos"
          ⟨3, 2, 4, 5126, false, [1, 2, 3, 4, 5, 6]⟩ (-1)).2 "pos"
      = Except.ok (3, 2, [1, 2, 3, 4, 5, 6]) :=
  uploadAttrib_downloadAttrib_roundtrip ⟨"s", []⟩ ⟨1, [], 0⟩ "pos"
    ⟨3, 2, 4, 5126, false, [1, 2, 3, 4, 5, 6]⟩ (by decide)
    (fun buf hb => by simp [mapFind] at hb)

/-- C5 (code bug): `bufferSize` as implemented sums the stored element
counts (`Buffer::size`), not byte sizes.  After uploading four 4-byte float
coefficients, `bufferSize` returns 4, while the byte accounting that the
claim and the in-source doc comment (glutil.h:172) describe yields 16. -/
theorem bufferSize_counts_elements_not_bytes :
    ((⟨"s", []⟩ : GLShader).uploadAttrib ⟨1, [], 0⟩ "pos" 4 2 4 5126 false [1, 2, 3, 4] 1).1.bufferSize = 4 ∧
    ((⟨"s", []⟩ : GLShader).uploadAttrib ⟨1, [], 0⟩ "pos" 4 2 4 5126 false [1, 2, 3, 4] 1).1.bufferSizeSpec = 16 ∧
    ((⟨"s", []⟩ : GLShader).uploadAttrib ⟨1, [], 0⟩ "pos" 4 2 4 5126 false [1, 2, 3, 4] 1).1.bufferSize
      ≠ ((⟨"s", []⟩ : GLShader).uploadAttrib ⟨1, [], 0⟩ "pos" 4 2 4 5126 false [1, 2, 3, 4] 1).1.bufferSizeSpec := by
  refine ⟨rfl, rfl, by decide⟩

/-- C6: `downloadAttrib` fails with the "buffer not found" error exactly
when no buffer is registered under `name` (the operation reads the registry
and never mutates it); otherwise it returns the matrix resized to
`(dim, size / dim)` and filled from the GPU store of the registered
buffer. -/
theorem downloadAttrib_not_found (s : GLShader) (gpu : GPU) (name : String) :
    ((s.hasAttrib name = false) ↔
      s.downloadAttribMat gpu name =
        Except.error ("downloadAttrib(" ++ s.mName ++ ", " ++ name ++ ") : buffer not found!")) ∧
    (∀ buf, mapFind s.mBufferObjects name = some buf →
      s.downloadAttribMat gpu name =
        Except.ok (buf.dim, buf.size / buf.dim, (mapFind gpu.store buf.id).getD [])) := by
  rcases heq : mapFind s.mBufferObjects name with _ | buf
  · refine ⟨⟨fun _ => ?_, fun _ => ?_⟩, fun buf hb => ?_⟩
    · simp [GLShader.downloadAttribMat, heq]
    · simp [GLShader.hasAttrib, heq]
    · exact Option.noConfusion hb
  · refine ⟨⟨fun hfalse => ?_, fun herr => ?_⟩, fun buf2 hb => ?_⟩
    · simp [GLShader.hasAttrib, heq] at hfalse
    · simp [GLShader.downloadAttribMat, heq] at herr
    · injection hb with hb2
      subst hb2
      simp [GLShader.downloadAttribMat, GLShader.downloadAttribRaw, heq]

/-- Witness for `downloadAttrib_not_found`: downloading an unregistered name
yields the not-found error; downloading a registered one returns the stored
shape and data. -/
theorem downloadAttrib_not_found_witness :
    ((⟨"s", []⟩ : GLShader).downloadAttribMat ⟨1, [], 0⟩ "pos"
      = Except.error "downloadAttrib(s, pos) : buffer not found!") ∧
    ((⟨"t", [("pos", ⟨1, 5126, 3, 4, 6, 2⟩)]⟩ : GLShader).downloadAttribMat
        ⟨2, [(1, [7, 8])], 0⟩ "pos"
      = Except.ok (3, 2, [7, 8])) := by
  constructor
  · exact (downloadAttrib_not_found ⟨"s", []⟩ ⟨1, [], 0⟩ "pos").1.mp (by decide)
  · exact (downloadAttrib_not_found ⟨"t", [("pos", ⟨1, 5126, 3, 4, 6, 2⟩)]⟩
      ⟨2, [(1, [7, 8])], 0⟩ "pos").2 ⟨1, 5126, 3, 4, 6, 2⟩ (by decide)

/-- C7: after `freeAttrib`, the buffer is gone — `hasAttrib` is false and
`attribVersion` is `-1`; when nothing is registered under `name`, the call
leaves both the shader and the GPU unchanged. -/
theorem freeAttrib_removes (s : GLShader) (gpu : GPU) (name : String) :
    (s.freeAttrib gpu name).1.hasAttrib name = false ∧
    (s.freeAttrib gpu name).1.attribVersion name = -1 ∧
    (s.hasAttrib name = false → s.freeAttrib gpu name = (s, gpu)) := by
  rcases heq : mapFind s.mBufferObjects name with _ | buf
  · simp [GLShader.freeAttrib, heq, GLShader.hasAttrib, GLShader.attribVersion]
  · refine ⟨?_, ?_, ?_⟩
    · simp [GLShader.freeAttrib, heq, GLShader.hasAttrib, mapFind_erase_self]
    · simp [GLShader.freeAttrib, heq, GLShader.attribVersion, mapFind_erase_self]
    · intro h
      simp [GLShader.hasAttrib, heq] at h

/-- Witness for `freeAttrib_removes`: freeing an absent name is a no-op;
freeing a registered one makes `hasAttrib` false. -/
theorem freeAttrib_removes_witness :
    ((⟨"s", []⟩ : GLShader).freeAttrib ⟨1, [], 0⟩ "pos" = (⟨"s", []⟩, ⟨1, [], 0⟩)) ∧
    ((⟨"t", [("pos", ⟨1, 5126, 3, 4, 6, 2⟩)]⟩ : GLShader).freeAttrib
        ⟨2, [(1, [7])], 0⟩ "pos").1.hasAttrib "pos" = false := by
  constructor
  · exact (freeAttrib_removes ⟨"s", []⟩ ⟨1, [], 0⟩ "pos").2.2 (by decide)
  · exact (freeAttrib_removes ⟨"t", [("pos", ⟨1, 5126, 3, 4, 6, 2⟩)]⟩
      ⟨2, [(1, [7])], 0⟩ "pos").1

/-- C8: `uploadIndices` is exactly the templated `uploadAttrib` at the
reserved name `"indices"` with the defaulted version `-1`, and afterwards
`hasAttrib "indices"` holds. -/
theorem uploadIndices_is_uploadAttrib (s : GLShader) (gpu : GPU) (M : Matrix) :
    s.uploadIndices gpu M = s.uploadAttribMat gpu "indices" M (-1) ∧
    (s.uploadIndices gpu M).1.hasAttrib "indices" = true := by
  refine ⟨rfl, ?_⟩
  rcases heq : mapFind s.mBufferObjects "indices" with _ | buf
  · simp [GLShader.uploadIndices, GLShader.uploadAttribMat,
      GLShader.uploadAttrib, heq, GLShader.hasAttrib, mapFind_insert_self]
  · simp [GLShader.uploadIndices, GLShader.uploadAttribMat,
      GLShader.uploadAttrib, heq, GLShader.hasAttrib, mapFind_insert_self]

/-- C9: `ready` holds iff the framebuffer handle is non-zero — false on a
freshly constructed `GLFramebuffer` and after `free`, true after a
successful `init` (whose allocated handle is non-zero). -/
theorem framebuffer_ready_iff (fb : GLFramebuffer) (size : Int × Int)
    (nSamples : Int) (fbH dH cH : Nat) :
    (fb.ready = true ↔ fb.mFramebuffer ≠ 0) ∧
    GLFramebuffer.mk0.ready = false ∧
    fb.free.ready = false ∧
    (fbH ≠ 0 → (fb.init size nSamples fbH dH cH).ready = true) := by
  refine ⟨?_, rfl, rfl, ?_⟩
  · simp [GLFramebuffer.ready]
  · intro h
    simpa [GLFramebuffer.init, GLFramebuffer.ready] using h

/-- Witness for `framebuffer_ready_iff`: after an `init` that allocated
handle 5, the framebuffer is ready. -/
theorem framebuffer_ready_iff_witness :
    (GLFramebuffer.mk0.init (640, 480) 4 5 6 7).ready = true :=
  (framebuffer_ready_iff GLFramebuffer.mk0 (640, 480) 4 5 6 7).2.2.2 (by decide)

/-- C10: `resetAttribVersion` sets the version of the registered buffer to
`-1` — modifying no other Buffer field and no other registry entry — so
`attribVersion` returns `-1` and the next `uploadAttrib` under any caller
version transfers; when `name` is absent the shader is unchanged. -/
theorem resetAttribVersion_spec (s : GLShader) (gpu : GPU) (name : String)
    (size dim compSize glType : Nat) (integral : Bool) (data : List Nat)
    (version : Int) :
    (∀ buf, mapFind s.mBufferObjects name = some buf →
      mapFind (s.resetAttribVersion name).mBufferObjects name
        = some { buf with version := -1 } ∧
      (s.resetAttribVersion name).attribVersion name = -1 ∧
      (∀ k, k ≠ name → mapFind (s.resetAttribVersion name).mBufferObjects k
        = mapFind s.mBufferObjects k) ∧
      ((s.resetAttribVersion name).uploadAttrib gpu name size dim compSize glType integral data version).2.transfers
        = gpu.transfers + 1) ∧
    (mapFind s.mBufferObjects name = none → s.resetAttribVersion name = s) := by
  constructor
  · intro buf heq
    have hfind : mapFind (s.resetAttribVersion name).mBufferObjects name
        = some { buf with version := -1 } := by
      simp [GLShader.resetAttribVersion, heq, mapFind_insert_self]
    refine ⟨hfind, ?_, ?_, ?_⟩
    · simp [GLShader.attribVersion, hfind]
    · intro k hk
      simp only [GLShader.resetAttribVersion, heq]
      exact mapFind_insert_ne _ _ _ _ hk
    · have hcond : version = -1 ∨
          version ≠ ({ buf with version := -1 } : Buffer).version := by
        by_cases hv : version = -1
        · exact Or.inl hv
        · exact Or.inr (by simpa using hv)
      simp [GLShader.uploadAttrib, hfind, if_pos hcond]
  · intro heq
    simp [GLShader.resetAttribVersion, heq]

/-- Witness for `resetAttribVersion_spec`: resetting a registered name makes
`attribVersion` return `-1`; resetting an absent name changes nothing. -/
theorem resetAttribVersion_spec_witness :
    ((⟨"s", [("pos", ⟨1, 5126, 3, 4, 6, 9⟩)]⟩ : GLShader).resetAttribVersion
        "pos").attribVersion "pos" = -1 ∧
    ((⟨"t", []⟩ : GLShader).resetAttribVersion "pos" = ⟨"t", []⟩) := by
  constructor
  · exact ((resetAttribVersion_spec ⟨"s", [("pos", ⟨1, 5126, 3, 4, 6, 9⟩)]⟩
      ⟨2, [(1, [0])], 0⟩ "pos" 6 3 4 5126 false [1] 9).1
      ⟨1, 5126, 3, 4, 6, 9⟩ (by decide)).2.1
  · exact (resetAttribVersion_spec ⟨"t", []⟩ ⟨1, [], 0⟩ "pos" 0 0 0 0 false
      [] 0).2 rfl

end Nanogui
